import Mathlib

/-
Shallow embedding of the pledge validation and settlement engine of the
crowdfunding MVC application (src/models/pledge_model.py and
src/models/project_model.py), together with the statistics aggregation.

Modelling choices:
  * JSON records become typed structures; monetary amounts (Python floats
    holding decimal values) are modelled as exact rationals.
  * Calendar dates are day numbers (Int); timestamps are second counts
    (Int).  Python's timedelta.days is floor division by 86400 seconds,
    modelled with Int.fdiv.
  * The four JSON files become the four lists of a DB value; loading and
    saving are the identity on that state (no I/O failure in the typed
    model, matching the code's catch-and-continue file helpers).
  * Python's truthiness test on reward_id (both None and the empty string
    are falsy) is modelled on Option String.
  * Python's list.sort / sorted are stable; List.insertionSort with a
    non-strict total relation computes the same stable result.
-/

namespace MVC

structure Project where
  id : String
  goal_amount : ℚ
  current_amount : ℚ
  deadline : Int
deriving DecidableEq

structure RewardTier where
  id : String
  project_id : String
  min_amount : ℚ
  remaining_quota : Int
deriving DecidableEq

structure Pledge where
  id : String
  user_id : String
  project_id : String
  amount : ℚ
  reward_id : Option String
  pledge_date : Int
deriving DecidableEq

structure RejectedPledge where
  user_id : String
  project_id : String
  amount : ℚ
  reward_id : Option String
  rejection_date : Int
  rejection_reason : String
deriving DecidableEq

structure User where
  id : String
  username : String
  full_name : String
deriving DecidableEq

/-- The persistent state: data/projects.json, data/reward_tiers.json,
data/pledges.json, data/rejected_pledges.json, data/users.json. -/
structure DB where
  projects : List Project
  rewards : List RewardTier
  pledges : List Pledge
  rejected : List RejectedPledge
  users : List User
deriving DecidableEq

/-- ProjectModel._calculate_days_remaining: max(0, deadline - today) in
whole days, both dates taken at midnight. -/
def daysRemaining (deadline today : Int) : Int :=
  max 0 (deadline - today)

/-- ProjectModel.get_project_by_id: first project whose id matches. -/
def getProjectById (db : DB) (project_id : String) : Option Project :=
  db.projects.find? (fun p => p.id == project_id)

/-- ProjectModel.get_reward_tiers: tiers of the project, sorted by
min_amount ascending (stable sort, as Python's list.sort). -/
def getRewardTiers (db : DB) (project_id : String) : List RewardTier :=
  (db.rewards.filter (fun r => r.project_id == project_id)).insertionSort
    (fun a b => a.min_amount ≤ b.min_amount)

/-- ProjectModel.update_project_amount: add additional_amount to the
current_amount of the first project whose id matches; the Bool is the
function's return value (True when a project was updated). -/
def updateProjectAmount : List Project → String → ℚ → List Project × Bool
  | [], _, _ => ([], false)
  | p :: ps, project_id, amt =>
    if p.id == project_id then
      ({ p with current_amount := p.current_amount + amt } :: ps, true)
    else
      let r := updateProjectAmount ps project_id amt
      (p :: r.1, r.2)

/-- ProjectModel.update_reward_quota: decrease remaining_quota by
decrease_by on the first reward whose id matches and whose
remaining_quota is positive. -/
def updateRewardQuota : List RewardTier → String → Int → List RewardTier × Bool
  | [], _, _ => ([], false)
  | r :: rs, reward_id, d =>
    if r.id == reward_id && r.remaining_quota > 0 then
      ({ r with remaining_quota := r.remaining_quota - d } :: rs, true)
    else
      let t := updateRewardQuota rs reward_id d
      (r :: t.1, t.2)

/-- UserModel.get_user_by_id. -/
def getUserById (db : DB) (user_id : String) : Option User :=
  db.users.find? (fun u => u.id == user_id)

/-- Python truthiness of the reward_id argument: None and the empty
string are falsy. -/
def rewardChosen : Option String → Bool
  | none => false
  | some s => !(s == "")

/-- The stored reward_id field: reward_id if reward_id else None. -/
def storedRewardId (reward_id : Option String) : Option String :=
  if rewardChosen reward_id then reward_id else none

/-- The zero padding of Python's format spec 06d. -/
def zeroPad (width : Nat) (s : String) : String :=
  String.mk (List.replicate (width - s.length) '0') ++ s

/-- The sequential pledge identifier pledge_NNNNNN. -/
def pledgeIdFor (n : Nat) : String :=
  "pledge_" ++ zeroPad 6 (toString n)

/-- The amount-below-minimum rejection reason, parameterized with the
tier's min_amount (the f-string of pledge_model.py line 75). -/
def minAmountMessage (m : ℚ) : String :=
  "Amount must be at least " ++ toString m ++ " for this reward"

/-- The value returned by create_pledge: success flag, message, and the
new pledge id on success. -/
structure PledgeResult where
  success : Bool
  message : String
  pledge_id : Option String
deriving DecidableEq

/-- PledgeModel._reject_pledge: append one RejectedPledge record with the
triggering reason and report failure. -/
def rejectPledge (db : DB) (now : Int) (user_id project_id : String)
    (amount : ℚ) (reward_id : Option String) (reason : String) :
    DB × PledgeResult :=
  let rp : RejectedPledge :=
    { user_id := user_id, project_id := project_id, amount := amount,
      reward_id := storedRewardId reward_id,
      rejection_date := now, rejection_reason := reason }
  ({ db with rejected := db.rejected ++ [rp] },
   { success := false, message := reason, pledge_id := none })

/-- The happy path of PledgeModel.create_pledge after all validations
pass: append the successful Pledge record, add the amount to the
project, and (when a reward was chosen) decrement its quota by 1. -/
def settlePledge (db : DB) (now : Int) (user_id project_id : String)
    (amount : ℚ) (reward_id : Option String) : DB × PledgeResult :=
  let pid := pledgeIdFor (db.pledges.length + 1)
  let np : Pledge :=
    { id := pid, user_id := user_id, project_id := project_id,
      amount := amount, reward_id := storedRewardId reward_id,
      pledge_date := now }
  let projects2 := (updateProjectAmount db.projects project_id amount).1
  let rewards2 :=
    match reward_id with
    | some s => if s == "" then db.rewards else (updateRewardQuota db.rewards s 1).1
    | none => db.rewards
  ({ db with pledges := db.pledges ++ [np], projects := projects2,
             rewards := rewards2 },
   { success := true, message := "Pledge created successfully",
     pledge_id := some pid })

/-- PledgeModel.create_pledge: the validation pipeline (project
existence, deadline, reward resolution, minimum amount, quota), then
settlement; any failure is recorded through rejectPledge.  today and now
are the evaluation date (day number) and timestamp (seconds). -/
def createPledge (db : DB) (today now : Int) (user_id project_id : String)
    (amount : ℚ) (reward_id : Option String) : DB × PledgeResult :=
  match getProjectById db project_id with
  | none =>
    rejectPledge db now user_id project_id amount reward_id "Project not found"
  | some project =>
    if daysRemaining project.deadline today ≤ 0 then
      rejectPledge db now user_id project_id amount reward_id
        "Project deadline has passed"
    else
      match reward_id with
      | some s =>
        if s == "" then
          settlePledge db now user_id project_id amount reward_id
        else
          match (getRewardTiers db project_id).find? (fun r => r.id == s) with
          | none =>
            rejectPledge db now user_id project_id amount reward_id
              "Selected reward tier not found"
          | some selected =>
            if amount < selected.min_amount then
              rejectPledge db now user_id project_id amount reward_id
                (minAmountMessage selected.min_amount)
            else if selected.remaining_quota ≤ 0 then
              rejectPledge db now user_id project_id amount reward_id
                "Selected reward tier is sold out"
            else
              settlePledge db now user_id project_id amount reward_id
      | none => settlePledge db now user_id project_id amount reward_id

/-- The reward tier the linear scan of create_pledge resolves for a
non-empty reward_id: the first match in the project's sorted tiers. -/
def selectedReward (db : DB) (project_id s : String) : Option RewardTier :=
  (getRewardTiers db project_id).find? (fun r => r.id == s)

/-- Python's timedelta.days for a difference of two timestamps in
seconds: floor division by 86400. -/
def deltaDays (current d : Int) : Int :=
  Int.fdiv (current - d) 86400

/-- The insertion-ordered counter dictionary of get_pledge_statistics:
increment the count of a key in place, appending unseen keys. -/
def bumpCount : List (String × Nat) → String → List (String × Nat)
  | [], k => [(k, 1)]
  | (k0, c) :: t, k =>
    if k0 == k then (k0, c + 1) :: t else (k0, c) :: bumpCount t k

/-- The rejection_reasons histogram, in first-encountered key order. -/
def rejectionHistogram (rs : List RejectedPledge) : List (String × Nat) :=
  rs.foldl (fun acc r => bumpCount acc r.rejection_reason) []

/-- The value returned by get_pledge_statistics.  The two Python round(x, 2)
display roundings of success_rate_percentage and average_pledge_amount
act on binary floats and are not modelled; the exact rational values are
kept. -/
structure PledgeStatistics where
  total_successful_pledges : Nat
  total_rejected_pledges : Nat
  total_pledge_attempts : Nat
  success_rate_percentage : ℚ
  total_pledged_amount : ℚ
  average_pledge_amount : ℚ
  recent_successful_pledges : Nat
  recent_rejected_pledges : Nat
  top_rejection_reasons : List (String × Nat)
deriving DecidableEq

/-- PledgeModel.get_pledge_statistics at evaluation moment now. -/
def getPledgeStatistics (db : DB) (now : Int) : PledgeStatistics :=
  let successful := db.pledges
  let rejected := db.rejected
  let total_successful := successful.length
  let total_rejected := rejected.length
  let total_attempts := total_successful + total_rejected
  let success_rate : ℚ :=
    if total_attempts > 0 then
      (total_successful : ℚ) / (total_attempts : ℚ) * 100
    else 0
  let total_amount : ℚ := (successful.map (fun p => p.amount)).sum
  let average : ℚ :=
    if total_successful > 0 then total_amount / (total_successful : ℚ) else 0
  { total_successful_pledges := total_successful,
    total_rejected_pledges := total_rejected,
    total_pledge_attempts := total_attempts,
    success_rate_percentage := success_rate,
    total_pledged_amount := total_amount,
    average_pledge_amount := average,
    recent_successful_pledges :=
      (successful.filter (fun p => deltaDays now p.pledge_date ≤ 7)).length,
    recent_rejected_pledges :=
      (rejected.filter (fun r => deltaDays now r.rejection_date ≤ 7)).length,
    top_rejection_reasons :=
      ((rejectionHistogram rejected).insertionSort (fun a b => b.2 ≤ a.2)).take 5 }

/-- The insertion-ordered totals dictionary of get_top_backers: add an
amount to a key in place, appending unseen keys. -/
def bumpTotal : List (String × ℚ) → String → ℚ → List (String × ℚ)
  | [], k, v => [(k, v)]
  | (k0, v0) :: t, k, v =>
    if k0 == k then (k0, v0 + v) :: t else (k0, v0) :: bumpTotal t k v

/-- user_totals of get_top_backers, in first-encountered key order. -/
def userTotals (ps : List Pledge) : List (String × ℚ) :=
  ps.foldl (fun acc p => bumpTotal acc p.user_id p.amount) []

/-- One entry of the get_top_backers result. -/
structure BackerEntry where
  user_name : String
  username : String
  total_pledged : ℚ
  pledge_count : Nat
deriving DecidableEq

/-- PledgeModel.get_top_backers: group by user, sort totals descending
(stable), truncate to limit, and keep only users the directory resolves,
enriched with name and per-user pledge count. -/
def getTopBackers (db : DB) (limit : Nat) : List BackerEntry :=
  let pledges := db.pledges
  let sortedBackers :=
    (userTotals pledges).insertionSort (fun a b => b.2 ≤ a.2)
  (sortedBackers.take limit).filterMap (fun ut =>
    match getUserById db ut.1 with
    | some u =>
      some { user_name := u.full_name, username := u.username,
             total_pledged := ut.2,
             pledge_count :=
               (pledges.filter (fun p => p.user_id == ut.1)).length }
    | none => none)

end MVC

namespace MVC

/-- The reward argument passes checks 3 to 5 of the pipeline: missing,
empty, or resolving to a tier of the project whose minimum is met and
whose quota is positive. -/
def rewardAcceptable (db : DB) (project_id : String) (amount : ℚ) :
    Option String → Prop
  | none => True
  | some s => s = "" ∨ ∃ r, selectedReward db project_id s = some r
      ∧ r.min_amount ≤ amount ∧ 0 < r.remaining_quota

/-- The sample project of the spec scenarios: goal 50000, raised 35750,
deadline 45 days out (day numbers relative to day 0). -/
def demoProject : Project :=
  { id := "10001001", goal_amount := 50000, current_amount := 35750,
    deadline := 45 }

/-- A sold-out tier of the sample project: min_amount 2500, quota 0. -/
def soldOutTier : RewardTier :=
  { id := "reward_1", project_id := "10001001", min_amount := 2500,
    remaining_quota := 0 }

/-- An open tier of the sample project: min_amount 5000, quota 20. -/
def openTier : RewardTier :=
  { id := "reward_2", project_id := "10001001", min_amount := 5000,
    remaining_quota := 20 }

/-- The concrete catalog used by the witnesses. -/
def demoDB : DB :=
  { projects := [demoProject], rewards := [soldOutTier, openTier],
    pledges := [], rejected := [], users := [] }

/-- One extra user-directory content for the user-independence witness. -/
def ghostUsers : List User :=
  [{ id := "u9", username := "nina", full_name := "Nina Ninth" }]

/-- A store holding one successful pledge that is 7 days and 1 hour old
at evaluation moment 1000000 (1000000 - 391600 = 608400 seconds). -/
def staleDB : DB :=
  { projects := [], rewards := [],
    pledges := [{ id := "pledge_000001", user_id := "u1", project_id := "P",
                  amount := 100, reward_id := none, pledge_date := 391600 }],
    rejected := [], users := [] }

/-- The catalog of the top_backers scenario: three users with successful
totals 500 (two pledges), 1500 and 300. -/
def backersDB : DB :=
  { projects := [], rewards := [],
    pledges :=
      [{ id := "pledge_000001", user_id := "u1", project_id := "10001001",
         amount := 200, reward_id := none, pledge_date := 0 },
       { id := "pledge_000002", user_id := "u2", project_id := "10001001",
         amount := 1500, reward_id := none, pledge_date := 0 },
       { id := "pledge_000003", user_id := "u3", project_id := "10001001",
         amount := 300, reward_id := none, pledge_date := 0 },
       { id := "pledge_000004", user_id := "u1", project_id := "10001001",
         amount := 300, reward_id := none, pledge_date := 0 }],
    rejected := [],
    users :=
      [{ id := "u1", username := "alice", full_name := "Alice Archer" },
       { id := "u2", username := "bob", full_name := "Bob Booker" },
       { id := "u3", username := "carol", full_name := "Carol Cooper" }] }

end MVC

namespace MVC

lemma createPledge_valid (db : DB) (today now : Int) (uid pid : String)
    (amount : ℚ) (rid : Option String) (p : Project)
    (hp : getProjectById db pid = some p)
    (hd : 0 < daysRemaining p.deadline today)
    (hok : rewardAcceptable db pid amount rid) :
    createPledge db today now uid pid amount rid
      = settlePledge db now uid pid amount rid := by
  unfold createPledge
  rw [hp]
  dsimp only
  rw [if_neg (not_le.mpr hd)]
  cases rid with
  | none => rfl
  | some s =>
    dsimp only
    by_cases hse : (s == "") = true
    · rw [if_pos hse]
    · rw [if_neg hse]
      rcases hok with hempty | ⟨r, hr, hmin, hq⟩
      · exact absurd (by simp [hempty]) hse
      · unfold selectedReward at hr
        rw [hr]
        dsimp only
        rw [if_neg (not_lt.mpr hmin)]
        rw [if_neg (not_le.mpr hq)]

lemma updateProjectAmount_find? (l : List Project) (pid : String) (amt : ℚ)
    (p : Project) (h : l.find? (fun q => q.id == pid) = some p) :
    (updateProjectAmount l pid amt).1.find? (fun q => q.id == pid)
      = some { p with current_amount := p.current_amount + amt } := by
  induction l with
  | nil => simp at h
  | cons q qs ih =>
    cases hq : q.id == pid with
    | true =>
      simp only [List.find?_cons, hq] at h
      injection h with h
      subst h
      simp [updateProjectAmount, hq, List.find?_cons]
    | false =>
      simp only [List.find?_cons, hq] at h
      simp only [updateProjectAmount, hq, Bool.false_eq_true, if_false]
      rw [List.find?_cons]
      simp only [hq]
      exact ih h

lemma updateRewardQuota_nonneg (l : List RewardTier) (rid : String)
    (h : ∀ t ∈ l, 0 ≤ t.remaining_quota) :
    ∀ t ∈ (updateRewardQuota l rid 1).1, 0 ≤ t.remaining_quota := by
  induction l with
  | nil =>
    intro t ht
    exact h t ht
  | cons r rs ih =>
    cases hg : (r.id == rid && decide (r.remaining_quota > 0)) with
    | true =>
      simp only [updateRewardQuota, hg, if_true]
      intro t ht
      rcases List.mem_cons.mp ht with h1 | h2
      · subst h1
        simp only [Bool.and_eq_true, decide_eq_true_eq] at hg
        simp only
        omega
      · exact h t (List.mem_cons_of_mem _ h2)
    | false =>
      simp only [updateRewardQuota, hg, Bool.false_eq_true, if_false]
      intro t ht
      rcases List.mem_cons.mp ht with h1 | h2
      · subst h1
        exact h t (List.mem_cons_self _ _)
      · exact ih (fun t ht => h t (List.mem_cons_of_mem _ ht)) t h2

lemma filter_eq_singleton_unique {l : List RewardTier} {s : String}
    {r : RewardTier} (hf : l.filter (fun t => t.id == s) = [r]) :
    r ∈ l ∧ (r.id == s) = true
      ∧ ∀ x ∈ l, (x.id == s) = true → x = r := by
  have hr : r ∈ l.filter (fun t => t.id == s) := by
    rw [hf]; exact List.mem_singleton_self r
  have hm := List.mem_filter.mp hr
  refine ⟨hm.1, hm.2, fun x hx hxs => ?_⟩
  have hx2 : x ∈ l.filter (fun t => t.id == s) := List.mem_filter.mpr ⟨hx, hxs⟩
  rw [hf] at hx2
  exact List.mem_singleton.mp hx2

lemma updateRewardQuota_filter (l : List RewardTier) (s : String)
    (r : RewardTier) (hf : l.filter (fun t => t.id == s) = [r])
    (hq : 0 < r.remaining_quota) :
    (updateRewardQuota l s 1).1.filter (fun t => t.id == s)
      = [{ r with remaining_quota := r.remaining_quota - 1 }] := by
  induction l with
  | nil => simp at hf
  | cons t ts ih =>
    cases ht : t.id == s with
    | true =>
      simp only [List.filter_cons, ht, if_true] at hf
      injection hf with h1 h2
      subst h1
      simp only [updateRewardQuota, ht, Bool.true_and, decide_eq_true_eq]
      rw [if_pos hq]
      simp only [List.filter_cons]
      simp only [ht, if_true, h2]
    | false =>
      simp only [List.filter_cons, ht, Bool.false_eq_true, if_false] at hf
      simp only [updateRewardQuota, ht, Bool.false_and, Bool.false_eq_true, if_false]
      simp only [List.filter_cons, ht, Bool.false_eq_true, if_false]
      exact ih hf

lemma createPledge_cases (db : DB) (today now : Int) (uid pid : String)
    (amount : ℚ) (rid : Option String) :
    (∃ reason, createPledge db today now uid pid amount rid
        = rejectPledge db now uid pid amount rid reason)
    ∨ createPledge db today now uid pid amount rid
        = settlePledge db now uid pid amount rid := by
  unfold createPledge
  split
  · exact Or.inl ⟨_, rfl⟩
  · split
    · exact Or.inl ⟨_, rfl⟩
    · split
      · split
        · exact Or.inr rfl
        · split
          · exact Or.inl ⟨_, rfl⟩
          · split
            · exact Or.inl ⟨_, rfl⟩
            · split
              · exact Or.inl ⟨_, rfl⟩
              · exact Or.inr rfl
      · exact Or.inr rfl

lemma createPledge_of_success (db : DB) (today now : Int) (uid pid : String)
    (amount : ℚ) (rid : Option String)
    (h : (createPledge db today now uid pid amount rid).2.success = true) :
    createPledge db today now uid pid amount rid
      = settlePledge db now uid pid amount rid := by
  rcases createPledge_cases db today now uid pid amount rid with ⟨reason, hr⟩ | hs
  · rw [hr] at h
    simp [rejectPledge] at h
  · exact hs

lemma createPledge_of_failure (db : DB) (today now : Int) (uid pid : String)
    (amount : ℚ) (rid : Option String)
    (h : (createPledge db today now uid pid amount rid).2.success = false) :
    ∃ reason, createPledge db today now uid pid amount rid
      = rejectPledge db now uid pid amount rid reason := by
  rcases createPledge_cases db today now uid pid amount rid with hr | hs
  · exact hr
  · rw [hs] at h
    simp [settlePledge] at h

lemma createPledge_users_irrelevant (db : DB) (us : List User)
    (today now : Int) (uid pid : String) (amount : ℚ) (rid : Option String) :
    createPledge { db with users := us } today now uid pid amount rid
      = ({ (createPledge db today now uid pid amount rid).1 with users := us },
         (createPledge db today now uid pid amount rid).2) := by
  unfold createPledge
  rw [show getProjectById { db with users := us } pid = getProjectById db pid from rfl]
  cases hp : getProjectById db pid with
  | none => rfl
  | some p =>
    dsimp only
    rw [show getRewardTiers { db with users := us } pid = getRewardTiers db pid from rfl]
    repeat first | rfl | split

lemma createPledge_success_reward (db : DB) (today now : Int)
    (uid pid : String) (amount : ℚ) (s : String)
    (h : (createPledge db today now uid pid amount (some s)).2.success = true)
    (hs : (s == "") = false) :
    ∃ r, selectedReward db pid s = some r
      ∧ r.min_amount ≤ amount ∧ 0 < r.remaining_quota := by
  unfold createPledge at h
  rcases hget : getProjectById db pid with _ | p
  · rw [hget] at h
    simp [rejectPledge] at h
  · rw [hget] at h
    dsimp only at h
    by_cases hd : daysRemaining p.deadline today ≤ 0
    · rw [if_pos hd] at h
      simp [rejectPledge] at h
    · rw [if_neg hd] at h
      try dsimp only at h
      simp only [hs, Bool.false_eq_true, if_false] at h
      rcases hf : List.find? (fun r => r.id == s) (getRewardTiers db pid) with _ | r
      · rw [hf] at h
        simp [rejectPledge] at h
      · rw [hf] at h
        try dsimp only at h
        by_cases hlow : amount < r.min_amount
        · rw [if_pos hlow] at h
          simp [rejectPledge] at h
        · rw [if_neg hlow] at h
          by_cases hq : r.remaining_quota ≤ 0
          · rw [if_pos hq] at h
            simp [rejectPledge] at h
          · exact ⟨r, hf, not_lt.mp hlow, by omega⟩

lemma deltaDays_le_seven_iff (now d : Int) :
    deltaDays now d ≤ 7 ↔ now - d < 8 * 86400 := by
  unfold deltaDays
  rw [Int.fdiv_eq_ediv _ (by norm_num)]
  constructor
  · intro h
    have h2 : (now - d) / 86400 < 8 := by omega
    have h3 := (Int.ediv_lt_iff_lt_mul (by norm_num : (0:ℤ) < 86400)).mp h2
    omega
  · intro h
    have h2 : (now - d) / 86400 < 8 :=
      (Int.ediv_lt_iff_lt_mul (by norm_num : (0:ℤ) < 86400)).mpr (by omega)
    omega

lemma bumpTotal_fst (l : List (String × ℚ)) (k : String) (v : ℚ) :
    ∀ x ∈ (bumpTotal l k v).map Prod.fst, x = k ∨ x ∈ l.map Prod.fst := by
  induction l with
  | nil =>
    intro x hx
    simp [bumpTotal] at hx
    exact Or.inl hx
  | cons a t ih =>
    obtain ⟨k0, v0⟩ := a
    intro x hx
    by_cases hk : (k0 == k) = true
    · simp only [bumpTotal, hk, if_true] at hx
      simp only [List.map_cons, List.mem_cons] at hx ⊢
      tauto
    · simp only [bumpTotal, hk, Bool.false_eq_true, if_false] at hx
      simp only [List.map_cons, List.mem_cons] at hx ⊢
      rcases hx with h1 | h2
      · tauto
      · rcases ih x h2 with h3 | h4
        · tauto
        · tauto

lemma userTotals_key (ps : List Pledge) :
    ∀ kv ∈ userTotals ps, ∃ p ∈ ps, p.user_id = kv.1 := by
  suffices hgen : ∀ (qs : List Pledge) (acc : List (String × ℚ)) (kv : String × ℚ),
      kv ∈ qs.foldl (fun a p => bumpTotal a p.user_id p.amount) acc →
      kv.1 ∈ acc.map Prod.fst ∨ ∃ p ∈ qs, p.user_id = kv.1 by
    intro kv hkv
    rcases hgen ps [] kv hkv with h1 | h2
    · simp at h1
    · exact h2
  intro qs
  induction qs with
  | nil =>
    intro acc kv h
    simp only [List.foldl_nil] at h
    exact Or.inl (List.mem_map.mpr ⟨kv, h, rfl⟩)
  | cons q qt ih =>
    intro acc kv h
    simp only [List.foldl_cons] at h
    rcases ih (bumpTotal acc q.user_id q.amount) kv h with h1 | h2
    · rcases bumpTotal_fst acc q.user_id q.amount kv.1 h1 with h3 | h4
      · exact Or.inr ⟨q, List.mem_cons_self _ _, h3.symm⟩
      · exact Or.inl h4
    · rcases h2 with ⟨p, hp, hid⟩
      exact Or.inr ⟨p, List.mem_cons_of_mem _ hp, hid⟩

lemma getTopBackers_length_le (db : DB) (limit : Nat) :
    (getTopBackers db limit).length ≤ limit := by
  unfold getTopBackers
  calc (List.filterMap _ _).length ≤ _ := List.length_filterMap_le _ _
    _ ≤ limit := List.length_take_le _ _

lemma getTopBackers_sorted (db : DB) (limit : Nat) :
    List.Pairwise (fun x y : BackerEntry => y.total_pledged ≤ x.total_pledged)
      (getTopBackers db limit) := by
  unfold getTopBackers
  haveI ht : IsTotal (String × ℚ) (fun a b => b.2 ≤ a.2) :=
    ⟨fun a b => le_total b.2 a.2⟩
  haveI htr : IsTrans (String × ℚ) (fun a b => b.2 ≤ a.2) :=
    ⟨fun a b c h1 h2 => le_trans h2 h1⟩
  have hsorted : List.Pairwise (fun a b : String × ℚ => b.2 ≤ a.2)
      (((userTotals db.pledges).insertionSort (fun a b => b.2 ≤ a.2)).take limit) :=
    List.Pairwise.sublist (List.take_sublist _ _)
      (List.sorted_insertionSort (fun a b : String × ℚ => b.2 ≤ a.2) _)
  refine List.Pairwise.filterMap _ ?_ hsorted
  intro a a' hrel b hb b' hb'
  rcases hu : getUserById db a.1 with _ | u <;> rw [hu] at hb <;> simp at hb
  rcases hu' : getUserById db a'.1 with _ | u' <;> rw [hu'] at hb' <;> simp at hb'
  subst hb
  subst hb'
  exact hrel

lemma getTopBackers_pledge_count (db : DB) (limit : Nat) :
    ∀ e ∈ getTopBackers db limit, 1 ≤ e.pledge_count := by
  unfold getTopBackers
  intro e he
  rcases List.mem_filterMap.mp he with ⟨ut, hut, hsome⟩
  have hmem : ut ∈ userTotals db.pledges := by
    have h1 : ut ∈ (userTotals db.pledges).insertionSort (fun a b => b.2 ≤ a.2) :=
      List.Sublist.mem hut (List.take_sublist _ _)
    exact (List.mem_insertionSort _).mp h1
  rcases userTotals_key db.pledges ut hmem with ⟨p, hp, hid⟩
  rcases hu : getUserById db ut.1 with _ | u <;> rw [hu] at hsome
  · simp at hsome
  · simp only [Option.some.injEq] at hsome
    have hpc : e.pledge_count
        = (db.pledges.filter (fun q => q.user_id == ut.1)).length := by
      rw [← hsome]
    rw [hpc]
    have hpf : p ∈ db.pledges.filter (fun q => q.user_id == ut.1) :=
      List.mem_filter.mpr ⟨hp, by simp [hid]⟩
    have := List.length_pos.mpr (List.ne_nil_of_mem hpf)
    omega

lemma minAmountMessage_ne_soldOut (m : ℚ) :
    minAmountMessage m ≠ "Selected reward tier is sold out" := by
  intro h
  have h2 := congrArg String.length h
  simp only [minAmountMessage, String.length_append] at h2
  have e1 : "Amount must be at least ".length = 24 := rfl
  have e2 : " for this reward".length = 16 := rfl
  have e3 : "Selected reward tier is sold out".length = 32 := rfl
  omega

end MVC

namespace MVC

/-- C1: every call to create_pledge appends exactly one durable record
across the two pledge stores: one successful Pledge on the happy path or
one RejectedPledge otherwise, never both and never neither, so the total
record count always grows by exactly 1. -/
theorem createPledge_appends_exactly_one_record (db : DB) (today now : Int)
    (uid pid : String) (amount : ℚ) (rid : Option String) :
    ((createPledge db today now uid pid amount rid).1.pledges.length
        + (createPledge db today now uid pid amount rid).1.rejected.length
      = db.pledges.length + db.rejected.length + 1)
    ∧ (((createPledge db today now uid pid amount rid).1.pledges.length
          = db.pledges.length + 1
        ∧ (createPledge db today now uid pid amount rid).1.rejected = db.rejected)
      ∨ ((createPledge db today now uid pid amount rid).1.pledges = db.pledges
        ∧ (createPledge db today now uid pid amount rid).1.rejected.length
            = db.rejected.length + 1)) := by
  rcases createPledge_cases db today now uid pid amount rid with ⟨reason, h⟩ | h <;>
    rw [h]
  · refine ⟨?_, Or.inr ⟨rfl, ?_⟩⟩ <;> simp [rejectPledge] <;> omega
  · refine ⟨?_, Or.inl ⟨?_, rfl⟩⟩ <;> simp [settlePledge] <;> omega

/-- C2: when a resolved reward tier is both underpaid and sold out, the
minimum-amount check fires first: the run rejects with the
amount-below-minimum reason parameterized by the tier's min_amount, that
reason is the one recorded, and it is never the sold-out reason. -/
theorem minimum_check_precedes_quota_check (db : DB) (today now : Int)
    (uid pid s : String) (amount : ℚ) (p : Project) (r : RewardTier)
    (hp : getProjectById db pid = some p)
    (hd : 0 < daysRemaining p.deadline today)
    (hs : (s == "") = false)
    (hr : selectedReward db pid s = some r)
    (hlow : amount < r.min_amount)
    (hsold : r.remaining_quota = 0) :
    (createPledge db today now uid pid amount (some s)).2
      = { success := false, message := minAmountMessage r.min_amount,
          pledge_id := none }
    ∧ (createPledge db today now uid pid amount (some s)).1.rejected
      = db.rejected
        ++ [{ user_id := uid, project_id := pid, amount := amount,
              reward_id := some s, rejection_date := now,
              rejection_reason := minAmountMessage r.min_amount }]
    ∧ minAmountMessage r.min_amount ≠ "Selected reward tier is sold out" := by
  have hrun : createPledge db today now uid pid amount (some s)
      = rejectPledge db now uid pid amount (some s)
          (minAmountMessage r.min_amount) := by
    unfold createPledge
    rw [hp]
    dsimp only
    rw [if_neg (not_le.mpr hd)]
    try dsimp only
    simp only [hs, Bool.false_eq_true, if_false]
    unfold selectedReward at hr
    rw [hr]
    try dsimp only
    rw [if_pos hlow]
  rw [hrun]
  refine ⟨rfl, ?_, minAmountMessage_ne_soldOut r.min_amount⟩
  simp [rejectPledge, storedRewardId, rewardChosen, hs]

/-- C4: a failed call leaves the project catalog untouched: projects
(hence every current_amount) and reward tiers (hence every
remaining_quota) keep their prior values, the success store is
unchanged, and only the rejection store receives one new record. -/
theorem failed_pledge_leaves_catalog_unchanged (db : DB) (today now : Int)
    (uid pid : String) (amount : ℚ) (rid : Option String)
    (h : (createPledge db today now uid pid amount rid).2.success = false) :
    (createPledge db today now uid pid amount rid).1.projects = db.projects
    ∧ (createPledge db today now uid pid amount rid).1.rewards = db.rewards
    ∧ (createPledge db today now uid pid amount rid).1.pledges = db.pledges
    ∧ ∃ rp, (createPledge db today now uid pid amount rid).1.rejected
        = db.rejected ++ [rp] := by
  rcases createPledge_of_failure db today now uid pid amount rid h with ⟨reason, hr⟩
  rw [hr]
  exact ⟨rfl, rfl, rfl, _, rfl⟩

/-- C6 (amended): the recent-activity window of get_pledge_statistics
counts a record exactly when its age is strictly below 8 days, i.e. its
whole-day age is at most 7: a record exactly 7 days old is counted, and
so is any record between 7 and 8 days old. -/
theorem recent_window_counts_under_eight_days (db : DB) (now : Int) :
    (getPledgeStatistics db now).recent_successful_pledges
      = (db.pledges.filter
          (fun p => decide (now - p.pledge_date < 8 * 86400))).length
    ∧ (getPledgeStatistics db now).recent_rejected_pledges
      = (db.rejected.filter
          (fun r => decide (now - r.rejection_date < 8 * 86400))).length := by
  constructor
  · have h0 : (getPledgeStatistics db now).recent_successful_pledges
        = (db.pledges.filter
            (fun p => decide (deltaDays now p.pledge_date ≤ 7))).length := rfl
    rw [h0]
    congr 1
    apply List.filter_congr
    intro x _
    exact decide_eq_decide.mpr (deltaDays_le_seven_iff now x.pledge_date)
  · have h0 : (getPledgeStatistics db now).recent_rejected_pledges
        = (db.rejected.filter
            (fun r => decide (deltaDays now r.rejection_date ≤ 7))).length := rfl
    rw [h0]
    congr 1
    apply List.filter_congr
    intro x _
    exact decide_eq_decide.mpr (deltaDays_le_seven_iff now x.rejection_date)

/-- C6 (counterexample): a successful pledge strictly older than 7 days
(age 608400 s = 7 days 1 hour) is still counted as recent by
get_pledge_statistics, against the claim that records older than 7 days
are not counted. -/
theorem record_older_than_seven_days_still_counted :
    7 * 86400 < (1000000 : Int) - 391600
    ∧ (getPledgeStatistics staleDB 1000000).recent_successful_pledges = 1 := by
  constructor
  · decide
  · decide

/-- C3: a successful call adds the pledged amount to the owning
project's current_amount exactly, and, when a (unique) reward tier was
selected, its remaining_quota drops by exactly 1. -/
theorem successful_pledge_applies_both_side_effects (db : DB)
    (today now : Int) (uid pid : String) (amount : ℚ) (rid : Option String)
    (hs : (createPledge db today now uid pid amount rid).2.success = true) :
    (∀ p, getProjectById db pid = some p →
      getProjectById (createPledge db today now uid pid amount rid).1 pid
        = some { p with current_amount := p.current_amount + amount })
    ∧ (∀ s r, rid = some s → (s == "") = false →
        db.rewards.filter (fun t => t.id == s) = [r] →
        ((createPledge db today now uid pid amount rid).1.rewards.filter
            (fun t => t.id == s))
          = [{ r with remaining_quota := r.remaining_quota - 1 }]) := by
  have hrun := createPledge_of_success db today now uid pid amount rid hs
  constructor
  · intro p hp
    rw [hrun]
    unfold getProjectById at hp ⊢
    have hpr : (settlePledge db now uid pid amount rid).1.projects
        = (updateProjectAmount db.projects pid amount).1 := rfl
    rw [hpr]
    exact updateProjectAmount_find? db.projects pid amount p hp
  · intro s r hrid hsne hfilter
    subst hrid
    rcases createPledge_success_reward db today now uid pid amount s hs hsne
      with ⟨rt, hsel, hmin, hq⟩
    unfold selectedReward at hsel
    have hts : (rt.id == s) = true :=
      @List.find?_some _ (fun t => t.id == s) rt (getRewardTiers db pid) hsel
    have hmem1 : rt ∈ getRewardTiers db pid :=
      @List.mem_of_find?_eq_some _ (fun t => t.id == s) rt (getRewardTiers db pid) hsel
    have hmem2 : rt ∈ db.rewards := by
      unfold getRewardTiers at hmem1
      have := (List.mem_insertionSort _).mp hmem1
      exact (List.mem_filter.mp this).1
    have hrt : rt = r :=
      (filter_eq_singleton_unique hfilter).2.2 rt hmem2 hts
    have hrq : 0 < r.remaining_quota := by rw [← hrt]; exact hq
    rw [hrun]
    have hrw : (settlePledge db now uid pid amount (some s)).1.rewards
        = (updateRewardQuota db.rewards s 1).1 := by
      simp [settlePledge, hsne]
    rw [hrw]
    exact updateRewardQuota_filter db.rewards s r hfilter hrq

/-- C5 (amended): starting from non-negative quotas, the quota-decrement
hook called with the default decrement of 1 (the only call the engine
makes) keeps every remaining_quota non-negative, a full create_pledge
call keeps every remaining_quota non-negative, and a pledge whose chosen
reward resolves to a tier with remaining_quota = 0 never succeeds. -/
theorem quota_never_negative_with_unit_decrement (rs : List RewardTier)
    (db : DB) (today now : Int) (uid pid rid : String) (amount : ℚ)
    (ridO : Option String) (s : String) (r : RewardTier)
    (hrs : ∀ t ∈ rs, 0 ≤ t.remaining_quota)
    (hdb : ∀ t ∈ db.rewards, 0 ≤ t.remaining_quota) :
    (∀ t ∈ (updateRewardQuota rs rid 1).1, 0 ≤ t.remaining_quota)
    ∧ (∀ t ∈ (createPledge db today now uid pid amount ridO).1.rewards,
        0 ≤ t.remaining_quota)
    ∧ (ridO = some s → (s == "") = false →
        selectedReward db pid s = some r → r.remaining_quota = 0 →
        (createPledge db today now uid pid amount ridO).2.success = false) := by
  refine ⟨updateRewardQuota_nonneg rs rid hrs, ?_, ?_⟩
  · rcases createPledge_cases db today now uid pid amount ridO with ⟨reason, h⟩ | h <;>
      rw [h]
    · exact hdb
    · cases ridO with
      | none => exact hdb
      | some s0 =>
        by_cases hs0 : (s0 == "") = true
        · have hh : (settlePledge db now uid pid amount (some s0)).1.rewards
              = db.rewards := by simp [settlePledge, hs0]
          rw [hh]
          exact hdb
        · have hh : (settlePledge db now uid pid amount (some s0)).1.rewards
              = (updateRewardQuota db.rewards s0 1).1 := by
            simp [settlePledge]
            intro h2
            exact absurd (by simp [h2]) hs0
          rw [hh]
          exact updateRewardQuota_nonneg db.rewards s0 hdb
  · intro hridO hsne hsel hq0
    subst hridO
    by_cases hsucc : (createPledge db today now uid pid amount (some s)).2.success = true
    · rcases createPledge_success_reward db today now uid pid amount s hsucc hsne
        with ⟨rt, hsel2, hmin, hq⟩
      rw [hsel] at hsel2
      injection hsel2 with hsel2
      subst hsel2
      omega
    · exact Bool.not_eq_true _ ▸ (by simpa using hsucc)

/-- C8: an empty or missing reward_id means no reward selected: the
reward checks are skipped, the pledge succeeds (whatever the reward
catalog holds), and the stored record carries reward_id = none; a
non-empty reward_id that fails to resolve is instead rejected with the
tier-not-found reason. -/
theorem empty_reward_id_skips_reward_checks (db : DB) (today now : Int)
    (uid pid : String) (amount : ℚ) (rid : Option String) (p : Project)
    (hp : getProjectById db pid = some p)
    (hd : 0 < daysRemaining p.deadline today)
    (hr : rewardChosen rid = false) :
    (createPledge db today now uid pid amount rid).2.success = true
    ∧ (createPledge db today now uid pid amount rid).1.pledges
      = db.pledges
        ++ [{ id := pledgeIdFor (db.pledges.length + 1), user_id := uid,
              project_id := pid, amount := amount, reward_id := none,
              pledge_date := now }]
    ∧ (∀ s, (s == "") = false → selectedReward db pid s = none →
        (createPledge db today now uid pid amount (some s)).2
          = { success := false, message := "Selected reward tier not found",
              pledge_id := none }) := by
  have hok : rewardAcceptable db pid amount rid := by
    cases rid with
    | none => trivial
    | some s =>
      simp only [rewardChosen, Bool.not_eq_false'] at hr
      exact Or.inl (by simpa using hr)
  have hrun := createPledge_valid db today now uid pid amount rid p hp hd hok
  refine ⟨by rw [hrun]; rfl, ?_, ?_⟩
  · rw [hrun]
    have hsr : storedRewardId rid = none := by
      unfold storedRewardId
      rw [hr]
      rfl
    simp [settlePledge, hsr]
  · intro s hsne hnone
    unfold createPledge
    rw [hp]
    dsimp only
    rw [if_neg (not_le.mpr hd)]
    try dsimp only
    simp only [hsne, Bool.false_eq_true, if_false]
    unfold selectedReward at hnone
    rw [hnone]
    rfl


end MVC

namespace MVC

/-- C5 (counterexample): a direct call to the quota-decrement hook with
decrease_by = 2 on a tier holding one last unit drives its
remaining_quota to -1, below zero. -/
theorem quota_hook_can_drive_quota_negative :
    (updateRewardQuota
        [{ id := "reward_9", project_id := "30003003", min_amount := 10,
           remaining_quota := 1 }] "reward_9" 2).1
      = [{ id := "reward_9", project_id := "30003003", min_amount := 10,
           remaining_quota := -1 }]
    ∧ (-1 : Int) < 0 := by
  constructor
  · decide
  · decide

/-- C7: get_top_backers returns at most limit entries, sorted descending
by total pledged amount, every entry backed by at least one successful
pledge (a user with no successful pledge never appears); on totals 500,
1500, 300 with limit 2 it returns the 1500 user then the 500 user,
omitting the 300 user. -/
theorem top_backers_sorted_truncated_grouped (db : DB) (limit : Nat) :
    (getTopBackers db limit).length ≤ limit
    ∧ List.Pairwise (fun x y : BackerEntry => y.total_pledged ≤ x.total_pledged)
        (getTopBackers db limit)
    ∧ (∀ e ∈ getTopBackers db limit, 1 ≤ e.pledge_count)
    ∧ getTopBackers backersDB 2
      = [{ user_name := "Bob Booker", username := "bob",
           total_pledged := 1500, pledge_count := 1 },
         { user_name := "Alice Archer", username := "alice",
           total_pledged := 500, pledge_count := 2 }] := by
  refine ⟨getTopBackers_length_le db limit, getTopBackers_sorted db limit,
    getTopBackers_pledge_count db limit, ?_⟩
  norm_num [getTopBackers, userTotals, backersDB, bumpTotal, getUserById,
    List.insertionSort, List.orderedInsert, List.foldl, List.filterMap,
    List.take, List.find?, List.filter]
  decide

/-- C9: create_pledge never consults the user directory: outcome and
stored records are identical for any two user-directory contents, and a
valid pledge succeeds for every user_id string (also one resolving to no
known user), recorded under that user_id unchanged. -/
theorem user_directory_never_consulted (db : DB) (today now : Int)
    (uid pid : String) (amount : ℚ) (rid : Option String)
    (us1 us2 : List User) (p : Project)
    (hp : getProjectById db pid = some p)
    (hd : 0 < daysRemaining p.deadline today)
    (hok : rewardAcceptable db pid amount rid) :
    (createPledge { db with users := us1 } today now uid pid amount rid).2
      = (createPledge { db with users := us2 } today now uid pid amount rid).2
    ∧ (createPledge { db with users := us1 } today now uid pid amount rid).1.pledges
      = (createPledge { db with users := us2 } today now uid pid amount rid).1.pledges
    ∧ (createPledge db today now uid pid amount rid).2.success = true
    ∧ (createPledge db today now uid pid amount rid).1.pledges
      = db.pledges
        ++ [{ id := pledgeIdFor (db.pledges.length + 1), user_id := uid,
              project_id := pid, amount := amount,
              reward_id := storedRewardId rid, pledge_date := now }] := by
  have h1 := createPledge_users_irrelevant db us1 today now uid pid amount rid
  have h2 := createPledge_users_irrelevant db us2 today now uid pid amount rid
  have hrun := createPledge_valid db today now uid pid amount rid p hp hd hok
  refine ⟨?_, ?_, by rw [hrun]; rfl, ?_⟩
  · rw [h1, h2]
  · rw [h1, h2]
  · rw [hrun]
    simp [settlePledge]

/-- C10: the engine itself imposes no positivity check on the amount: a
non-positive amount with no reward selected still succeeds and is added
to the project's current_amount as is. -/
theorem no_positivity_check_on_amount (db : DB) (today now : Int)
    (uid pid : String) (amount : ℚ) (rid : Option String) (p : Project)
    (hp : getProjectById db pid = some p)
    (hd : 0 < daysRemaining p.deadline today)
    (hr : rewardChosen rid = false)
    (hneg : amount ≤ 0) :
    (createPledge db today now uid pid amount rid).2.success = true
    ∧ getProjectById (createPledge db today now uid pid amount rid).1 pid
      = some { p with current_amount := p.current_amount + amount } := by
  have hok : rewardAcceptable db pid amount rid := by
    cases rid with
    | none => trivial
    | some s =>
      simp only [rewardChosen, Bool.not_eq_false'] at hr
      exact Or.inl (by simpa using hr)
  have hrun := createPledge_valid db today now uid pid amount rid p hp hd hok
  refine ⟨by rw [hrun]; rfl, ?_⟩
  rw [hrun]
  unfold getProjectById at hp ⊢
  have hpr : (settlePledge db now uid pid amount rid).1.projects
      = (updateProjectAmount db.projects pid amount).1 := rfl
  rw [hpr]
  exact updateProjectAmount_find? db.projects pid amount p hp

end MVC

namespace MVC

/-- Witness for C2: amount 100 against the sold-out tier (min 2500,
quota 0) of the sample project is rejected with the amount-below-minimum
reason, not the sold-out reason. -/
theorem minimum_check_precedes_quota_check_witness :
    (createPledge demoDB 0 1 "u1" "10001001" 100 (some "reward_1")).2
      = { success := false, message := minAmountMessage 2500,
          pledge_id := none } := by
  have h := minimum_check_precedes_quota_check demoDB 0 1 "u1" "10001001"
      "reward_1" 100 demoProject soldOutTier (by decide) (by decide)
      (by decide) (by decide) (by decide) (by decide)
  exact h.1

/-- Witness for C3: a successful 6000 pledge on the open tier raises the
project amount from 35750 by 6000 and drops the tier quota from 20 to 19. -/
theorem successful_pledge_applies_both_side_effects_witness :
    getProjectById
        (createPledge demoDB 0 1 "u1" "10001001" 6000 (some "reward_2")).1
        "10001001"
      = some { demoProject with
               current_amount := demoProject.current_amount + 6000 }
    ∧ ((createPledge demoDB 0 1 "u1" "10001001" 6000 (some "reward_2")).1.rewards.filter
        (fun t => t.id == "reward_2"))
      = [{ openTier with remaining_quota := openTier.remaining_quota - 1 }] := by
  have h := successful_pledge_applies_both_side_effects demoDB 0 1 "u1"
      "10001001" 6000 (some "reward_2") (by decide)
  exact ⟨h.1 demoProject (by decide),
    h.2 "reward_2" openTier rfl (by decide) (by decide)⟩

/-- Witness for C4: a pledge against an unknown project id fails and
leaves projects, rewards and the success store unchanged. -/
theorem failed_pledge_leaves_catalog_unchanged_witness :
    (createPledge demoDB 0 1 "u1" "99999999" 100 none).1.projects
      = demoDB.projects
    ∧ (createPledge demoDB 0 1 "u1" "99999999" 100 none).1.rewards
      = demoDB.rewards
    ∧ (createPledge demoDB 0 1 "u1" "99999999" 100 none).1.pledges
      = demoDB.pledges
    ∧ ∃ rp, (createPledge demoDB 0 1 "u1" "99999999" 100 none).1.rejected
        = demoDB.rejected ++ [rp] := by
  have h := failed_pledge_leaves_catalog_unchanged demoDB 0 1 "u1"
      "99999999" 100 none (by decide)
  exact h

/-- Witness for C5 (amended): the unit-decrement hook keeps the sample
quotas non-negative, and a pledge choosing the sold-out tier fails. -/
theorem quota_never_negative_with_unit_decrement_witness :
    (∀ t ∈ (updateRewardQuota demoDB.rewards "reward_2" 1).1,
        0 ≤ t.remaining_quota)
    ∧ (createPledge demoDB 0 1 "u1" "10001001" 3000 (some "reward_1")).2.success
      = false := by
  have h := quota_never_negative_with_unit_decrement demoDB.rewards demoDB
      0 1 "u1" "10001001" "reward_2" 3000 (some "reward_1") "reward_1"
      soldOutTier (by decide) (by decide)
  exact ⟨h.1, h.2.2 rfl (by decide) (by decide) (by decide)⟩

/-- Witness for C8: a pledge with no reward_id on the active sample
project succeeds, while the unresolvable id reward_404 is rejected with
the tier-not-found reason. -/
theorem empty_reward_id_skips_reward_checks_witness :
    (createPledge demoDB 0 1 "u1" "10001001" 500 none).2.success = true
    ∧ (createPledge demoDB 0 1 "u1" "10001001" 500 (some "reward_404")).2
      = { success := false, message := "Selected reward tier not found",
          pledge_id := none } := by
  have h := empty_reward_id_skips_reward_checks demoDB 0 1 "u1" "10001001"
      500 none demoProject (by decide) (by decide) (by decide)
  exact ⟨h.1, h.2.2 "reward_404" (by decide) (by decide)⟩

/-- Witness for C9: the pledge of an unknown user ghost succeeds with an
empty user directory exactly as with a non-empty one. -/
theorem user_directory_never_consulted_witness :
    (createPledge { demoDB with users := [] } 0 1 "ghost" "10001001" 500 none).2
      = (createPledge { demoDB with users := ghostUsers } 0 1 "ghost"
          "10001001" 500 none).2
    ∧ (createPledge demoDB 0 1 "ghost" "10001001" 500 none).2.success
      = true := by
  have h := user_directory_never_consulted demoDB 0 1 "ghost" "10001001"
      500 none [] ghostUsers demoProject (by decide) (by decide) True.intro
  exact ⟨h.1, h.2.2.1⟩

/-- Witness for C10: a pledge of -5 with no reward succeeds and adds -5
to the sample project's current_amount. -/
theorem no_positivity_check_on_amount_witness :
    (createPledge demoDB 0 1 "u1" "10001001" (-5) none).2.success = true
    ∧ getProjectById (createPledge demoDB 0 1 "u1" "10001001" (-5) none).1
        "10001001"
      = some { demoProject with
               current_amount := demoProject.current_amount + (-5) } := by
  have h := no_positivity_check_on_amount demoDB 0 1 "u1" "10001001" (-5)
      none demoProject (by decide) (by decide) (by decide) (by decide)
  exact h

end MVC
